import Mathlib

/-!
Verification development for the popcorn-images control-plane server.

The Go sources embedded here:
  * `server/cmd/config/config.go` — configuration record and its `validate`.
  * `server/cmd/api/api` recording handlers (`StartRecording`, `StopRecording`,
    `DownloadRecording`, `DeleteRecording`).
  * the `/json/version` DevTools discovery handler from the server `main`.
  * the debounced scale-to-zero activity controller.

The `recorder` package (FFmpeg recorder and record manager) and the
`scaletozero` package are not part of the shipped sources; their operations are
modelled from the design document, and every such definition carries a
`Modelled from the spec:` doc comment.  The HTTP handlers themselves are
translated directly from the Go code.
-/

namespace Popcorn

/-! ## Configuration (server/cmd/config/config.go) -/

/-- The server configuration record, from `config.Config`.  Go `int` fields are
embedded as `Int`. -/
structure Config where
  port : Int
  frameRate : Int
  displayNum : Int
  maxSizeInMB : Int
  outputDir : String
  pathToFFmpeg : String
  logCDPMessages : Bool
deriving Repr, DecidableEq

/-- The `config.validate` check: returns the first failing check's error message, or
`none` on success (Go returns `error`/`nil`). -/
def validate (c : Config) : Option String :=
  if c.outputDir = "" then some "OUTPUT_DIR is required"
  else if c.displayNum < 0 then some "DISPLAY_NUM must be greater than 0"
  else if c.frameRate < 0 ∨ c.frameRate > 20 then
    some "FRAME_RATE must be greater than 0 and less than or equal to 20"
  else if c.maxSizeInMB < 0 ∨ c.maxSizeInMB > 1000 then
    some "MAX_SIZE_MB must be greater than 0 and less than or equal to 1000"
  else if c.pathToFFmpeg = "" then some "FFMPEG_PATH is required"
  else none

/-- C10: validation succeeds exactly when `OutputDir` and `PathToFFmpeg` are
non-empty, `DisplayNum ≥ 0`, `FrameRate ∈ [0, 20]`, and `MaxSizeInMB ∈ [0, 1000]`;
in particular frame rate 0 and max size 0 are accepted and values above the
caps are rejected. -/
theorem validate_ok_iff (c : Config) :
    validate c = none ↔
      c.outputDir ≠ "" ∧ c.pathToFFmpeg ≠ "" ∧ 0 ≤ c.displayNum ∧
      0 ≤ c.frameRate ∧ c.frameRate ≤ 20 ∧
      0 ≤ c.maxSizeInMB ∧ c.maxSizeInMB ≤ 1000 := by
  unfold validate
  split_ifs with h1 h2 h3 h4 h5
  · simp only [reduceCtorEq, false_iff]
    intro h
    exact h.1 h1
  · simp only [reduceCtorEq, false_iff]
    intro h
    omega
  · simp only [reduceCtorEq, false_iff]
    intro h
    omega
  · simp only [reduceCtorEq, false_iff]
    intro h
    omega
  · simp only [reduceCtorEq, false_iff]
    intro h
    exact h.2.1 h5
  · simp only [true_iff]
    refine ⟨h1, h5, ?_, ?_, ?_, ?_, ?_⟩ <;> omega

/-! ## Recorder model

The `recorder` package is not among the shipped sources; only its callers (the
API handlers) are.  The recorder and manager operations below are therefore
modelled from the design document. -/

/-- Recorder lifecycle phase, from the spec's state machine
`Idle → Recording → Finalizing → Completed`, with the orthogonal terminal
`Deleted`. -/
inductive RecPhase
  | idle
  | recording
  | finalizing
  | completed
  | deleted
deriving Repr, DecidableEq

/-- Recording metadata: start time, end time (timestamps abstracted to `Nat`)
and byte size. -/
structure RecMeta where
  startTime : Nat
  endTime : Nat
  size : Int
deriving Repr, DecidableEq

/-- Modelled from the spec: one managed Recorder wrapping an external
transcoding process.  Besides the lifecycle phase and metadata it carries
oracle fields fixing how its external-process operations behave: whether
`Start` confirms the process launch, whether `Stop`/`ForceStop` report an
error, whether the finalize step succeeds, and how `Delete`'s file removal
turns out. -/
structure RecorderModel where
  rid : String
  phase : RecPhase
  meta : RecMeta
  launchOk : Bool
  stopReportsErr : Bool
  finalizeOk : Bool
  deleteOtherErr : Bool
  fileMissing : Bool
deriving Repr, DecidableEq

/-- Observer `Recorder.IsRecording`. -/
def RecorderModel.isRecording (r : RecorderModel) : Bool :=
  r.phase = .recording

/-- Observer `Recorder.IsDeleted`. -/
def RecorderModel.isDeleted (r : RecorderModel) : Bool :=
  r.phase = .deleted

/-- Error conditions `Recorder.Recording` can report: the distinguished
`recorder.ErrRecordingFinalizing`, or any other error. -/
inductive RecErr
  | finalizing
  | other
deriving Repr, DecidableEq

/-- Modelled from the spec: `Recording()` returns the output file handle and
metadata; while the post-process finalize step is pending it fails with the
"finalizing" condition rather than returning a partial file.  While recording
it returns the growing file (the download handler's minimum-size policy relies
on that). -/
def RecorderModel.recordingCall (r : RecorderModel) : Except RecErr RecMeta :=
  match r.phase with
  | .recording => .ok r.meta
  | .completed => .ok r.meta
  | .finalizing => .error .finalizing
  | .idle => .error .other
  | .deleted => .error .other

/-- Modelled from the spec: `WaitForFinalization(ctx)` blocks until the
finalize step completes (after which a subsequent `Recording()` call must
succeed) or reports the finalize failure. -/
def RecorderModel.waitForFinalization (r : RecorderModel) :
    Except Unit RecorderModel :=
  if r.finalizeOk then
    .ok { r with phase := if r.phase = .finalizing then .completed else r.phase }
  else
    .error ()

/-- Error conditions `Recorder.Delete` can report: still finalizing, the file
already missing (`os.ErrNotExist`), or any other I/O failure. -/
inductive DelErr
  | finalizing
  | notExist
  | other
deriving Repr, DecidableEq

/-- Modelled from the spec: `Delete()` fails while still Finalizing (retry
shortly); otherwise it removes the file and marks the Recorder Deleted.  A
file already gone surfaces as the `notExist` error. -/
def RecorderModel.deleteCall (r : RecorderModel) :
    Option DelErr × RecorderModel :=
  if r.phase = .finalizing then (some .finalizing, r)
  else if r.deleteOtherErr then (some .other, r)
  else if r.fileMissing then (some .notExist, { r with phase := .deleted })
  else (none, { r with phase := .deleted })

/-- Outcome of `Stop`/`ForceStop`: the updated recorder, whether an error was
reported, and whether the manager-side finalize step and the activity-release
step ran. -/
structure StopEffects where
  updated : RecorderModel
  errReported : Bool
  managerFinalizeRun : Bool
  activityReleased : Bool
deriving Repr, DecidableEq

/-- Modelled from the spec: graceful `Stop()` requests a clean process
termination and always performs the manager-side finalize step and the
activity-release step, even when the process already exited on its own; it
transitions the recorder into Finalizing. -/
def RecorderModel.stopCall (r : RecorderModel) : StopEffects :=
  { updated := { r with phase := .finalizing }
    errReported := r.stopReportsErr
    managerFinalizeRun := true
    activityReleased := true }

/-- Modelled from the spec: `ForceStop()` sends an immediate kill signal and
transitions into Finalizing regardless of the kill-vs-graceful path, with the
same manager-side finalize and activity-release steps. -/
def RecorderModel.forceStopCall (r : RecorderModel) : StopEffects :=
  { updated := { r with phase := .finalizing }
    errReported := r.stopReportsErr
    managerFinalizeRun := true
    activityReleased := true }

/-! ## Record-manager registry -/

/-- The manager's registry: IDs mapped to Recorders (association list; keys
unique, insertion order irrelevant). -/
abbrev Registry : Type := List (String × RecorderModel)

/-- Lookup `RecordManager.GetRecorder`. -/
def getRecorder : Registry → String → Option RecorderModel
  | [], _ => none
  | p :: rest, i => if p.1 = i then some p.2 else getRecorder rest i

/-- Modelled from the spec: `RegisterRecorder` is the single-writer gate — a
single atomic check-and-insert that rejects registration when the ID already
has a Recorder in the registry (the `StartRecording` handler's "recording
already completed" branch shows the gate also rejects IDs whose recorder has
finished). -/
def registerRecorder (st : Registry) (i : String) (r : RecorderModel) :
    Except Unit Registry :=
  if (getRecorder st i).isSome then .error () else .ok ((i, r) :: st)

/-- Modelled from the spec: `DeregisterRecorder` removes the ID's entry so the
ID becomes retryable. -/
def deregisterRecorder : Registry → String → Registry
  | [], _ => []
  | p :: rest, i =>
    if p.1 = i then deregisterRecorder rest i
    else p :: deregisterRecorder rest i

/-- Replace the recorder stored under an ID (in-place state mutation of the
shared recorder object in Go). -/
def updateRecorder : Registry → String → RecorderModel → Registry
  | [], _, _ => []
  | p :: rest, i, r =>
    if p.1 = i then (i, r) :: updateRecorder rest i r
    else p :: updateRecorder rest i r

theorem getRecorder_deregister (st : Registry) (i : String) :
    getRecorder (deregisterRecorder st i) i = none := by
  induction st with
  | nil => rfl
  | cons p rest ih =>
    by_cases h : p.1 = i
    · simpa [deregisterRecorder, h] using ih
    · simpa [deregisterRecorder, getRecorder, h] using ih

theorem getRecorder_update (st : Registry) (i : String) (r : RecorderModel) :
    getRecorder (updateRecorder st i r) i =
      (getRecorder st i).map (fun _ => r) := by
  induction st with
  | nil => rfl
  | cons p rest ih =>
    by_cases h : p.1 = i
    · simp [updateRecorder, getRecorder, h]
    · simpa [updateRecorder, getRecorder, h] using ih

/-! ## API handlers (server/cmd/api/api, recording endpoints)

These are translated directly from the Go handler bodies.  `idOpt` stands for
the optional `Id` field of the request body (with `none` also covering a nil
body); the handlers fall back to the service's default recorder ID. -/

/-- The `ApiService.defaultRecorderID`, set to `"default"` in `api.New`. -/
def defaultRecorderID : String := "default"

/-- The ID-resolution prologue shared by the recording handlers: use the
request's ID unless it is absent or empty. -/
def resolveRecorderID (idOpt : Option String) : String :=
  match idOpt with
  | some s => if s = "" then defaultRecorderID else s
  | none => defaultRecorderID

/-- Responses `StartRecording` can produce. -/
inductive StartResp
  | created201
  | badRequest400 (msg : String)
  | conflict409 (msg : String)
  | internal500 (msg : String)
deriving Repr, DecidableEq

/-- How the factory-built recorder for a `StartRecording` request behaves:
whether `factory(recorderID, params)` succeeds, and whether `rec.Start`
confirms the process launch. -/
structure NewRec where
  createOk : Bool
  launchOk : Bool
deriving Repr, DecidableEq

/-- The recorder the factory hands back before `Start` is called. -/
def freshRecorder (i : String) (nr : NewRec) : RecorderModel :=
  { rid := i
    phase := .idle
    meta := { startTime := 0, endTime := 0, size := 0 }
    launchOk := nr.launchOk
    stopReportsErr := false
    finalizeOk := true
    deleteOtherErr := false
    fileMissing := false }

/-- Handler `ApiService.StartRecording`: create the recorder via the factory, register
it (on a registration conflict answer 409 while the existing recorder is still
recording and 400 otherwise), start it, and deregister it again when the start
fails. -/
def startRecording (st : Registry) (idOpt : Option String) (nr : NewRec) :
    Registry × StartResp :=
  let recorderID := resolveRecorderID idOpt
  if ¬ nr.createOk then
    (st, .internal500 "failed to create recording")
  else
    let rec0 := freshRecorder recorderID nr
    match registerRecorder st recorderID rec0 with
    | .error _ =>
      match getRecorder st recorderID with
      | some r =>
        if r.isRecording then
          (st, .conflict409 "recording already in progress")
        else
          (st, .badRequest400 "recording already completed")
      | none => (st, .internal500 "failed to register recording")
    | .ok st1 =>
      if ¬ nr.launchOk then
        (deregisterRecorder st1 recorderID, .internal500 "failed to start recording")
      else
        (updateRecorder st1 recorderID { rec0 with phase := .recording },
         .created201)

/-- Responses `StopRecording` can produce. -/
inductive StopResp
  | ok200
  | badRequest400 (msg : String)
deriving Repr, DecidableEq

/-- Observable outcome of `StopRecording`: the registry afterwards, the HTTP
response, which stop call was made (`some force`, or `none` when no recorder
existed), the error the call reported (only logged), and the stop side
effects. -/
structure StopOutcome where
  st : Registry
  resp : StopResp
  invoked : Option Bool
  loggedErr : Option Bool
  managerFinalizeRun : Bool
  activityReleased : Bool
deriving Repr, DecidableEq

/-- Handler `ApiService.StopRecording`: look the recorder up, then always call
`ForceStop`/`Stop` (no `IsRecording` check); an error from the call is logged
but the handler still answers 200. -/
def stopRecording (st : Registry) (idOpt : Option String)
    (forceOpt : Option Bool) : StopOutcome :=
  let recorderID := resolveRecorderID idOpt
  match getRecorder st recorderID with
  | none =>
    { st := st
      resp := .badRequest400 "no active recording to stop"
      invoked := none
      loggedErr := none
      managerFinalizeRun := false
      activityReleased := false }
  | some r =>
    let force := forceOpt.getD false
    let eff := if force then r.forceStopCall else r.stopCall
    { st := updateRecorder st recorderID eff.updated
      resp := .ok200
      invoked := some force
      loggedErr := some eff.errReported
      managerFinalizeRun := eff.managerFinalizeRun
      activityReleased := eff.activityReleased }

/-- Responses `DownloadRecording` can produce.  The 200 response carries the
`X-Recording-Started-At`/`X-Recording-Finished-At` headers (timestamps) and
the content length; the 202 response carries the `Retry-After` header. -/
inductive DlResp
  | ok200 (startedAt finishedAt : Nat) (contentLength : Int)
  | accepted202 (retryAfter : Nat)
  | badRequest400 (msg : String)
  | notFound404 (msg : String)
  | internal500 (msg : String)
deriving Repr, DecidableEq

/-- Observable outcome of `DownloadRecording`: the response, how many times
`rec.Recording()` was called, whether `WaitForFinalization` was called, and
whether the served file handle was closed early (the 202 short-circuit). -/
structure DlOutcome where
  resp : DlResp
  recordingCalls : Nat
  waitCalled : Bool
  fileClosed : Bool
deriving Repr, DecidableEq

/-- Constant `minRecordingSizeInBytes = 100`. -/
def minRecordingSizeInBytes : Int := 100

/-- The tail of `DownloadRecording` after a successful `Recording()` call:
short-circuit with 202/Retry-After 300 (closing the file handle) when still
recording and the file is arbitrarily small, otherwise serve the bytes with
the start/finish timestamps as headers. -/
def serveRecording (r : RecorderModel) (m : RecMeta) (calls : Nat)
    (waited : Bool) : DlOutcome :=
  if r.isRecording ∧ m.size ≤ minRecordingSizeInBytes then
    { resp := .accepted202 300
      recordingCalls := calls
      waitCalled := waited
      fileClosed := true }
  else
    { resp := .ok200 m.startTime m.endTime m.size
      recordingCalls := calls
      waitCalled := waited
      fileClosed := false }

/-- Handler `ApiService.DownloadRecording`: 404 when the recorder is unknown, 400 when
deleted; on the finalizing condition from `Recording()` wait for finalization
and retry once, surfacing any error as a 500; then apply the minimum-size
download policy.  (Every recorder the factory builds is an `FFmpegRecorder`,
so the handler's type-assertion branch cannot fail in this model.) -/
def downloadRecording (st : Registry) (idOpt : Option String) : DlOutcome :=
  let recorderID := resolveRecorderID idOpt
  match getRecorder st recorderID with
  | none =>
    { resp := .notFound404 "no recording found"
      recordingCalls := 0
      waitCalled := false
      fileClosed := false }
  | some r =>
    if r.isDeleted then
      { resp := .badRequest400 "requested recording has been deleted"
        recordingCalls := 0
        waitCalled := false
        fileClosed := false }
    else
      match r.recordingCall with
      | .ok m => serveRecording r m 1 false
      | .error .finalizing =>
        match r.waitForFinalization with
        | .error _ =>
          { resp := .internal500 "failed to finalize recording"
            recordingCalls := 1
            waitCalled := true
            fileClosed := false }
        | .ok r2 =>
          match r2.recordingCall with
          | .error _ =>
            { resp := .internal500 "failed to get recording"
              recordingCalls := 2
              waitCalled := true
              fileClosed := false }
          | .ok m => serveRecording r2 m 2 true
      | .error .other =>
        { resp := .internal500 "failed to get recording"
          recordingCalls := 1
          waitCalled := false
          fileClosed := false }

/-- Responses `DeleteRecording` can produce. -/
inductive DelResp
  | ok200
  | badRequest400 (msg : String)
  | notFound404 (msg : String)
  | conflict409 (msg : String)
  | internal500 (msg : String)
deriving Repr, DecidableEq

/-- Observable outcome of `DeleteRecording`: the registry afterwards, the
response, and whether `rec.Delete` was called. -/
structure DelOutcome where
  st : Registry
  resp : DelResp
  deleteCalled : Bool
deriving Repr, DecidableEq

/-- Handler `ApiService.DeleteRecording`: 404 when unknown; 400 without calling
`Delete` while still recording; on `ErrRecordingFinalizing` from `Delete` a
409 telling the client to retry; `os.ErrNotExist` is tolerated; other errors
are 500; otherwise 200. -/
def deleteRecording (st : Registry) (idOpt : Option String) : DelOutcome :=
  let recorderID := resolveRecorderID idOpt
  match getRecorder st recorderID with
  | none =>
    { st := st, resp := .notFound404 "no recording found", deleteCalled := false }
  | some r =>
    if r.isRecording then
      { st := st
        resp := .badRequest400 "recording must be stopped first"
        deleteCalled := false }
    else
      let (errOpt, r2) := r.deleteCall
      let st2 := updateRecorder st recorderID r2
      match errOpt with
      | some .finalizing =>
        { st := st2
          resp := .conflict409 "recording is being finalized, please retry in a few seconds"
          deleteCalled := true }
      | some .other =>
        { st := st2
          resp := .internal500 "failed to delete recording"
          deleteCalled := true }
      | some .notExist =>
        { st := st2, resp := .ok200, deleteCalled := true }
      | none =>
        { st := st2, resp := .ok200, deleteCalled := true }

/-! ## DevTools discovery endpoint (`/json/version` handler in main) -/

/-- The discovery endpoint's possible responses. -/
inductive VersionResp
  | unavailable503 (msg : String)
  | ok200 (webSocketDebuggerUrl : String)
deriving Repr, DecidableEq

/-- The `/json/version` handler: reads `upstreamMgr.Current()` (passed here as
`current`); when no upstream has ever been observed it answers 503, otherwise
it reports `ws://` + the request's own `Host` as the websocket debugger URL. -/
def jsonVersionHandler (current : String) (host : String) : VersionResp :=
  if current = "" then .unavailable503 "upstream not ready"
  else .ok200 ("ws://" ++ host)

/-! ## Activity controller (scale-to-zero)

The `scaletozero` package is not among the shipped sources; the debounced
controller is modelled from the design document's tagged-variant state
`{Active, PendingIdle(deadline), Idle}`. -/

/-- Modelled from the spec: the controller's state — suspension forbidden
(`active`), a pending "allow suspend" transition debouncing until `deadline`
(`pendingIdle`), or suspension permitted (`unwatched`). -/
inductive AState
  | active
  | pendingIdle (deadline : Nat)
  | unwatched
deriving Repr, DecidableEq

/-- A write to the external suspension control surface: permit or forbid
suspension of the host. -/
inductive SuspendWrite
  | permit
  | forbid
deriving Repr, DecidableEq

/-- Events driving the controller: the two public calls plus the debounce
timer firing, each stamped with the time it happens. -/
inductive AEvent
  | markActive
  | markIdleCandidate
  | timerFire
deriving Repr, DecidableEq

/-- Modelled from the spec: one controller step.  `MarkActive` is idempotent
and cancels any pending transition, writing to the control surface only when
the state actually changes; `MarkIdleCandidate` only (re)arms the debounce
timer for `now + window`; the timer firing at or after the armed deadline is
what performs the single "suspend permitted" transition. -/
def stepActivity (window : Nat) (s : AState) (e : Nat × AEvent) :
    AState × List SuspendWrite :=
  match e.2 with
  | .markActive =>
    match s with
    | .unwatched => (.active, [.forbid])
    | .active => (.active, [])
    | .pendingIdle _ => (.active, [])
  | .markIdleCandidate =>
    match s with
    | .unwatched => (.unwatched, [])
    | _ => (.pendingIdle (e.1 + window), [])
  | .timerFire =>
    match s with
    | .pendingIdle d => if d ≤ e.1 then (.unwatched, [.permit]) else (s, [])
    | _ => (s, [])

/-- Run the controller over a timed event trace, collecting the external
writes in order. -/
def runActivity (window : Nat) (s : AState) :
    List (Nat × AEvent) → AState × List SuspendWrite
  | [] => (s, [])
  | e :: rest =>
    let out := stepActivity window s e
    let tail := runActivity window out.1 rest
    (tail.1, out.2 ++ tail.2)

/-- The two public calls (no timer), for describing bursts of callers. -/
inductive MarkCall
  | markActive
  | markIdleCandidate
deriving Repr, DecidableEq

/-- View a public call as a controller event. -/
def MarkCall.toEvent : MarkCall → AEvent
  | .markActive => .markActive
  | .markIdleCandidate => .markIdleCandidate

theorem stepActivity_mark_not_unwatched (window : Nat) (s : AState)
    (t : Nat) (c : MarkCall) (hs : s ≠ .unwatched) :
    (stepActivity window s (t, c.toEvent)).1 ≠ .unwatched ∧
      (stepActivity window s (t, c.toEvent)).2 = [] := by
  cases c <;> cases s <;> simp [stepActivity, MarkCall.toEvent] at hs ⊢

theorem runActivity_marks_silent (window : Nat) (s : AState)
    (calls : List (Nat × MarkCall)) (hs : s ≠ .unwatched) :
    (runActivity window s (calls.map (fun p => (p.1, p.2.toEvent)))).1 ≠ .unwatched ∧
      (runActivity window s (calls.map (fun p => (p.1, p.2.toEvent)))).2 = [] := by
  induction calls generalizing s with
  | nil => exact ⟨hs, rfl⟩
  | cons c rest ih =>
    have hstep := stepActivity_mark_not_unwatched window s c.1 c.2 hs
    have htail := ih _ hstep.1
    simp only [List.map_cons, runActivity]
    exact ⟨htail.1, by rw [hstep.2, htail.2]; rfl⟩

theorem runActivity_append (window : Nat) (s : AState)
    (l1 l2 : List (Nat × AEvent)) :
    runActivity window s (l1 ++ l2) =
      ((runActivity window (runActivity window s l1).1 l2).1,
       (runActivity window s l1).2 ++
         (runActivity window (runActivity window s l1).1 l2).2) := by
  induction l1 generalizing s with
  | nil => simp [runActivity]
  | cons e rest ih => simp [runActivity, ih, List.append_assoc]

/-! ## Claim theorems -/

/-- A concrete recorder used in witness instantiations. -/
def sampleRec (p : RecPhase) : RecorderModel :=
  { rid := "default"
    phase := p
    meta := { startTime := 3, endTime := 7, size := 42 }
    launchOk := true
    stopReportsErr := false
    finalizeOk := true
    deleteOtherErr := false
    fileMissing := false }

/-- C1: when a recorder is already registered under the resolved ID,
`StartRecording` answers 409 "recording already in progress" while that
recorder is still recording, answers 400 otherwise, and in both cases leaves
the registry unchanged — it never replaces the existing recorder. -/
theorem startRecording_duplicate_id (st : Registry) (idOpt : Option String)
    (nr : NewRec) (r : RecorderModel)
    (hc : nr.createOk = true)
    (hr : getRecorder st (resolveRecorderID idOpt) = some r) :
    (r.phase = .recording →
      startRecording st idOpt nr =
        (st, .conflict409 "recording already in progress")) ∧
    (r.phase ≠ .recording →
      startRecording st idOpt nr =
        (st, .badRequest400 "recording already completed")) := by
  constructor <;> intro hp <;>
    simp [startRecording, hc, registerRecorder, hr, RecorderModel.isRecording, hp]

/-- Witness for C1 on a one-entry registry holding a recording recorder. -/
theorem startRecording_duplicate_id_witness :
    (NewRec.mk true true).createOk = true ∧
    getRecorder [("default", sampleRec .recording)] (resolveRecorderID none) =
      some (sampleRec .recording) ∧
    (((sampleRec .recording).phase = .recording →
      startRecording [("default", sampleRec .recording)] none (NewRec.mk true true) =
        ([("default", sampleRec .recording)],
          .conflict409 "recording already in progress")) ∧
     ((sampleRec .recording).phase ≠ .recording →
      startRecording [("default", sampleRec .recording)] none (NewRec.mk true true) =
        ([("default", sampleRec .recording)],
          .badRequest400 "recording already completed"))) :=
  ⟨rfl, by decide,
   startRecording_duplicate_id [("default", sampleRec .recording)] none
     (NewRec.mk true true) (sampleRec .recording) rfl (by decide)⟩

/-- C7: when registration succeeds but `Start` fails to launch the process,
the handler answers 500 and deregisters the recorder before returning, so the
ID is retryable — an immediately following `StartRecording` with a working
recorder answers 201 instead of a duplicate rejection. -/
theorem startRecording_launch_failure_retryable (st : Registry)
    (idOpt : Option String) (nr nr2 : NewRec)
    (hc : nr.createOk = true) (hl : nr.launchOk = false)
    (hc2 : nr2.createOk = true) (hl2 : nr2.launchOk = true)
    (hfree : getRecorder st (resolveRecorderID idOpt) = none) :
    (startRecording st idOpt nr).2 = .internal500 "failed to start recording" ∧
    getRecorder (startRecording st idOpt nr).1 (resolveRecorderID idOpt) = none ∧
    (startRecording (startRecording st idOpt nr).1 idOpt nr2).2 = .created201 := by
  have h1 : startRecording st idOpt nr =
      (deregisterRecorder
        ((resolveRecorderID idOpt, freshRecorder (resolveRecorderID idOpt) nr) :: st)
        (resolveRecorderID idOpt),
       .internal500 "failed to start recording") := by
    simp [startRecording, hc, hl, registerRecorder, hfree]
  have h2 : getRecorder (startRecording st idOpt nr).1 (resolveRecorderID idOpt) = none := by
    rw [h1]
    exact getRecorder_deregister _ _
  refine ⟨by rw [h1], h2, ?_⟩
  rw [h1]
  simp [startRecording, hc2, hl2, registerRecorder, getRecorder_deregister]

/-- Witness for C7 starting from the empty registry. -/
theorem startRecording_launch_failure_retryable_witness :
    (NewRec.mk true false).createOk = true ∧
    (NewRec.mk true false).launchOk = false ∧
    (NewRec.mk true true).createOk = true ∧
    (NewRec.mk true true).launchOk = true ∧
    getRecorder [] (resolveRecorderID (some "r1")) = none ∧
    ((startRecording [] (some "r1") (NewRec.mk true false)).2 =
        .internal500 "failed to start recording" ∧
      getRecorder (startRecording [] (some "r1") (NewRec.mk true false)).1
        (resolveRecorderID (some "r1")) = none ∧
      (startRecording (startRecording [] (some "r1") (NewRec.mk true false)).1
        (some "r1") (NewRec.mk true true)).2 = .created201) :=
  ⟨rfl, rfl, rfl, rfl, rfl,
   startRecording_launch_failure_retryable [] (some "r1")
     (NewRec.mk true false) (NewRec.mk true true) rfl rfl rfl rfl rfl⟩

/-- C4: for any registered recorder, regardless of its phase — in particular
when its process already exited on its own — `StopRecording` invokes
`ForceStop` exactly when the force flag is set and `Stop` otherwise, answers
200, and the manager-side finalize and activity-release steps run. -/
theorem stopRecording_unconditional (st : Registry) (idOpt : Option String)
    (forceOpt : Option Bool) (r : RecorderModel)
    (hr : getRecorder st (resolveRecorderID idOpt) = some r) :
    (stopRecording st idOpt forceOpt).resp = .ok200 ∧
    (stopRecording st idOpt forceOpt).invoked = some (forceOpt.getD false) ∧
    (stopRecording st idOpt forceOpt).managerFinalizeRun = true ∧
    (stopRecording st idOpt forceOpt).activityReleased = true := by
  cases hf : forceOpt.getD false <;>
    simp [stopRecording, hr, hf, RecorderModel.stopCall,
      RecorderModel.forceStopCall]

/-- Witness for C4 on a recorder whose process already exited (Completed,
`IsRecording` false), stopped without the force flag. -/
theorem stopRecording_unconditional_witness :
    getRecorder [("default", sampleRec .completed)] (resolveRecorderID none) =
      some (sampleRec .completed) ∧
    ((stopRecording [("default", sampleRec .completed)] none none).resp = .ok200 ∧
     (stopRecording [("default", sampleRec .completed)] none none).invoked =
       some ((none : Option Bool).getD false) ∧
     (stopRecording [("default", sampleRec .completed)] none none).managerFinalizeRun = true ∧
     (stopRecording [("default", sampleRec .completed)] none none).activityReleased = true) :=
  ⟨by decide,
   stopRecording_unconditional [("default", sampleRec .completed)] none none
     (sampleRec .completed) (by decide)⟩

/-- C9: when the underlying `Stop`/`ForceStop` call reports an error,
`StopRecording` still answers 200; the error is only logged, never surfaced. -/
theorem stopRecording_swallows_stop_error (st : Registry)
    (idOpt : Option String) (forceOpt : Option Bool) (r : RecorderModel)
    (hr : getRecorder st (resolveRecorderID idOpt) = some r)
    (he : r.stopReportsErr = true) :
    (stopRecording st idOpt forceOpt).resp = .ok200 ∧
    (stopRecording st idOpt forceOpt).loggedErr = some true := by
  cases hf : forceOpt.getD false <;>
    simp [stopRecording, hr, hf, RecorderModel.stopCall,
      RecorderModel.forceStopCall, he]

/-- Witness for C9 on a recorder whose stop call errors. -/
theorem stopRecording_swallows_stop_error_witness :
    getRecorder [("default", { sampleRec .recording with stopReportsErr := true })]
      (resolveRecorderID none) =
        some { sampleRec .recording with stopReportsErr := true } ∧
    ({ sampleRec .recording with stopReportsErr := true }).stopReportsErr = true ∧
    ((stopRecording [("default", { sampleRec .recording with stopReportsErr := true })]
        none (some true)).resp = .ok200 ∧
     (stopRecording [("default", { sampleRec .recording with stopReportsErr := true })]
        none (some true)).loggedErr = some true) :=
  ⟨by decide, rfl,
   stopRecording_swallows_stop_error
     [("default", { sampleRec .recording with stopReportsErr := true })]
     none (some true) { sampleRec .recording with stopReportsErr := true }
     (by decide) rfl⟩

/-- C2: when `Recording()` reports the finalizing condition, the download
handler calls `WaitForFinalization`; if finalization succeeds it retries
`Recording()` exactly once and serves the file with its metadata headers,
while a finalization failure is surfaced as a 500 internal error with no
further retry and no file returned. -/
theorem downloadRecording_finalizing_retry (st : Registry)
    (idOpt : Option String) (r : RecorderModel)
    (hr : getRecorder st (resolveRecorderID idOpt) = some r)
    (hp : r.phase = .finalizing) :
    (downloadRecording st idOpt).waitCalled = true ∧
    (r.finalizeOk = true →
      (downloadRecording st idOpt).recordingCalls = 2 ∧
      (downloadRecording st idOpt).resp =
        .ok200 r.meta.startTime r.meta.endTime r.meta.size) ∧
    (r.finalizeOk = false →
      (downloadRecording st idOpt).recordingCalls = 1 ∧
      (downloadRecording st idOpt).resp =
        .internal500 "failed to finalize recording") := by
  cases hf : r.finalizeOk <;>
    simp [downloadRecording, hr, RecorderModel.isDeleted, hp,
      RecorderModel.recordingCall, RecorderModel.waitForFinalization, hf,
      serveRecording, RecorderModel.isRecording, minRecordingSizeInBytes]

/-- Witness for C2 on a finalizing recorder whose finalize step succeeds. -/
theorem downloadRecording_finalizing_retry_witness :
    getRecorder [("default", sampleRec .finalizing)] (resolveRecorderID none) =
      some (sampleRec .finalizing) ∧
    (sampleRec .finalizing).phase = .finalizing ∧
    ((downloadRecording [("default", sampleRec .finalizing)] none).waitCalled = true ∧
     ((sampleRec .finalizing).finalizeOk = true →
       (downloadRecording [("default", sampleRec .finalizing)] none).recordingCalls = 2 ∧
       (downloadRecording [("default", sampleRec .finalizing)] none).resp =
         .ok200 (sampleRec .finalizing).meta.startTime
           (sampleRec .finalizing).meta.endTime (sampleRec .finalizing).meta.size) ∧
     ((sampleRec .finalizing).finalizeOk = false →
       (downloadRecording [("default", sampleRec .finalizing)] none).recordingCalls = 1 ∧
       (downloadRecording [("default", sampleRec .finalizing)] none).resp =
         .internal500 "failed to finalize recording")) :=
  ⟨by decide, rfl,
   downloadRecording_finalizing_retry [("default", sampleRec .finalizing)] none
     (sampleRec .finalizing) (by decide) rfl⟩

/-- C5: the download policy — while still recording with metadata size at
most the 100-byte threshold the handler answers 202 with Retry-After 300 and
closes the file handle; above the threshold, or once the recording has
stopped and completed, the bytes are served with the start and finish
timestamps as response headers. -/
theorem downloadRecording_min_size_policy (st : Registry)
    (idOpt : Option String) (r : RecorderModel)
    (hr : getRecorder st (resolveRecorderID idOpt) = some r) :
    (r.phase = .recording → r.meta.size ≤ 100 →
      downloadRecording st idOpt =
        { resp := .accepted202 300, recordingCalls := 1, waitCalled := false,
          fileClosed := true }) ∧
    (r.phase = .recording → 100 < r.meta.size →
      (downloadRecording st idOpt).resp =
        .ok200 r.meta.startTime r.meta.endTime r.meta.size) ∧
    (r.phase = .completed →
      (downloadRecording st idOpt).resp =
        .ok200 r.meta.startTime r.meta.endTime r.meta.size) := by
  refine ⟨fun hp hs => ?_, fun hp hs => ?_, fun hp => ?_⟩
  · simp [downloadRecording, hr, RecorderModel.isDeleted, hp,
      RecorderModel.recordingCall, serveRecording, RecorderModel.isRecording,
      minRecordingSizeInBytes, hs]
  · have hs' : ¬ r.meta.size ≤ minRecordingSizeInBytes := by
      simp only [minRecordingSizeInBytes]
      omega
    simp [downloadRecording, hr, RecorderModel.isDeleted, hp,
      RecorderModel.recordingCall, serveRecording, RecorderModel.isRecording, hs']
  · simp [downloadRecording, hr, RecorderModel.isDeleted, hp,
      RecorderModel.recordingCall, serveRecording, RecorderModel.isRecording]

/-- Witness for C5 on a recorder mid-recording with a 42-byte file. -/
theorem downloadRecording_min_size_policy_witness :
    getRecorder [("default", sampleRec .recording)] (resolveRecorderID none) =
      some (sampleRec .recording) ∧
    (((sampleRec .recording).phase = .recording →
        (sampleRec .recording).meta.size ≤ 100 →
      downloadRecording [("default", sampleRec .recording)] none =
        { resp := .accepted202 300, recordingCalls := 1, waitCalled := false,
          fileClosed := true }) ∧
     ((sampleRec .recording).phase = .recording →
        100 < (sampleRec .recording).meta.size →
      (downloadRecording [("default", sampleRec .recording)] none).resp =
        .ok200 (sampleRec .recording).meta.startTime
          (sampleRec .recording).meta.endTime (sampleRec .recording).meta.size) ∧
     ((sampleRec .recording).phase = .completed →
      (downloadRecording [("default", sampleRec .recording)] none).resp =
        .ok200 (sampleRec .recording).meta.startTime
          (sampleRec .recording).meta.endTime (sampleRec .recording).meta.size)) :=
  ⟨by decide,
   downloadRecording_min_size_policy [("default", sampleRec .recording)] none
     (sampleRec .recording) (by decide)⟩

/-- C3: deleting an existing recorder answers 400 without calling `Delete`
while it is still recording; a `Delete` reporting the finalizing condition
yields a 409 telling the client to retry; otherwise (absent an unrelated I/O
failure) the handler answers 200 and the registry's recorder is marked
Deleted. -/
theorem deleteRecording_lifecycle (st : Registry) (idOpt : Option String)
    (r : RecorderModel)
    (hr : getRecorder st (resolveRecorderID idOpt) = some r) :
    (r.phase = .recording →
      deleteRecording st idOpt =
        { st := st, resp := .badRequest400 "recording must be stopped first",
          deleteCalled := false }) ∧
    (r.phase = .finalizing →
      (deleteRecording st idOpt).resp =
        .conflict409 "recording is being finalized, please retry in a few seconds") ∧
    (r.phase ≠ .recording → r.phase ≠ .finalizing → r.deleteOtherErr = false →
      (deleteRecording st idOpt).resp = .ok200 ∧
      (deleteRecording st idOpt).deleteCalled = true ∧
      getRecorder (deleteRecording st idOpt).st (resolveRecorderID idOpt) =
        some { r with phase := .deleted }) := by
  refine ⟨fun hp => ?_, fun hp => ?_, fun hp1 hp2 he => ?_⟩
  · simp [deleteRecording, hr, RecorderModel.isRecording, hp]
  · simp [deleteRecording, hr, RecorderModel.isRecording, hp,
      RecorderModel.deleteCall]
  · cases hm : r.fileMissing <;>
      simp [deleteRecording, hr, RecorderModel.isRecording, hp1, hp2,
        RecorderModel.deleteCall, he, hm, getRecorder_update]

/-- Witness for C3 on a completed recorder with an intact file. -/
theorem deleteRecording_lifecycle_witness :
    getRecorder [("default", sampleRec .completed)] (resolveRecorderID none) =
      some (sampleRec .completed) ∧
    (((sampleRec .completed).phase = .recording →
      deleteRecording [("default", sampleRec .completed)] none =
        { st := [("default", sampleRec .completed)],
          resp := .badRequest400 "recording must be stopped first",
          deleteCalled := false }) ∧
     ((sampleRec .completed).phase = .finalizing →
      (deleteRecording [("default", sampleRec .completed)] none).resp =
        .conflict409 "recording is being finalized, please retry in a few seconds") ∧
     ((sampleRec .completed).phase ≠ .recording →
        (sampleRec .completed).phase ≠ .finalizing →
        (sampleRec .completed).deleteOtherErr = false →
      (deleteRecording [("default", sampleRec .completed)] none).resp = .ok200 ∧
      (deleteRecording [("default", sampleRec .completed)] none).deleteCalled = true ∧
      getRecorder (deleteRecording [("default", sampleRec .completed)] none).st
        (resolveRecorderID none) = some { sampleRec .completed with phase := .deleted })) :=
  ⟨by decide,
   deleteRecording_lifecycle [("default", sampleRec .completed)] none
     (sampleRec .completed) (by decide)⟩

/-- C6: the `/json/version` discovery handler answers 503 "upstream not
ready" when no upstream endpoint has ever been observed, and otherwise
reports `ws://` followed by the request's own Host — a value independent of
the internal upstream address. -/
theorem jsonVersionHandler_discovery (current host : String) :
    (current = "" → jsonVersionHandler current host =
      .unavailable503 "upstream not ready") ∧
    (current ≠ "" → jsonVersionHandler current host =
      .ok200 ("ws://" ++ host)) := by
  constructor <;> intro h <;> simp [jsonVersionHandler, h]

/-- Witness for C6 with an internal upstream address and an external host. -/
theorem jsonVersionHandler_discovery_witness :
    jsonVersionHandler "" "example.com" = .unavailable503 "upstream not ready" ∧
    jsonVersionHandler "ws://127.0.0.1:9223/devtools/browser/abc" "example.com" =
      .ok200 "ws://example.com" :=
  ⟨(jsonVersionHandler_discovery "" "example.com").1 rfl,
   (jsonVersionHandler_discovery "ws://127.0.0.1:9223/devtools/browser/abc"
     "example.com").2 (by decide)⟩

/-- C8: starting from the active state, a burst of `MarkActive` and
`MarkIdleCandidate` calls within one debounce window, ending with an idle
candidate whose timer then elapses with no intervening `MarkActive`, produces
exactly one external "suspend permitted" write — not one per call; moreover a
step that does not change the controller state writes nothing and no step
ever writes more than once. -/
theorem activity_debounce_single_transition (window : Nat)
    (burst : List (Nat × MarkCall)) (tl : Nat) :
    ((runActivity window .active
        ((burst.map fun p => (p.1, p.2.toEvent)) ++
          [(tl, .markIdleCandidate), (tl + window, .timerFire)])).2.count
        .permit = 1) ∧
    (∀ (s : AState) (e : Nat × AEvent),
      (stepActivity window s e).1 = s → (stepActivity window s e).2 = []) ∧
    (∀ (s : AState) (e : Nat × AEvent),
      (stepActivity window s e).2.length ≤ 1) := by
  refine ⟨?_, ?_, ?_⟩
  · rw [runActivity_append]
    rcases runActivity_marks_silent window .active burst (by simp) with ⟨hne, hnil⟩
    rw [hnil]
    rcases hs : (runActivity window AState.active
        (burst.map fun p => (p.1, p.2.toEvent))).1 with _ | d
    · simp [runActivity, stepActivity, List.count_cons]
    · simp [runActivity, stepActivity, List.count_cons]
    · exact absurd hs hne
  · rintro s ⟨t, ev⟩ h
    cases ev with
    | markActive => cases s <;> simp_all [stepActivity]
    | markIdleCandidate => cases s <;> simp_all [stepActivity]
    | timerFire =>
      cases s with
      | active => simp [stepActivity]
      | unwatched => simp [stepActivity]
      | pendingIdle d =>
        by_cases hd : d ≤ t
        · simp [stepActivity, hd] at h
        · simp [stepActivity, hd]
  · rintro s ⟨t, ev⟩
    cases ev <;> cases s <;> simp only [stepActivity] <;> (try split) <;> simp

end Popcorn
